import Mathlib

/-!
Shallow embedding of the atlas-frontend mock backend (`src/services/apiService.ts`),
the chat-provider dispatcher (`src/unnamed/part_000`), and the user-management
authorization check (`src/unnamed/part_001`), together with theorems checking the
natural-language specification against this code.

Modelling conventions:
* The localStorage-persisted `AppDatabase` JSON document is a Lean structure; the
  read-modify-write API functions become pure functions `AppDatabase → ... → result × AppDatabase`.
* JS strings are Lean `String`; `s.toLowerCase()` is per-character ASCII lowering
  (all inputs in the claims are ASCII); `hay.includes(sub)` is infix testing on the
  underlying character lists.
* Optional JS fields (`password?: string`) are `Option String`; `undefined` is `none`.
* JS numbers that carry no arithmetic in the modelled code (timestamps, sampling
  parameters) are `Nat`/`Rat`.
* `Math.ceil(a / b)` on naturals with `b > 0` is `(a + b - 1) / b`; the modelled
  endpoints are only ever called with positive `limit`.
-/

/-- Per-character lowercase of a string, the model of JS `String.prototype.toLowerCase`
on the ASCII inputs occurring in this development. -/
def lower (s : String) : String := ⟨s.data.map Char.toLower⟩

/-- `startsWithChars sub hay` tests whether `sub` is an initial segment of `hay`. -/
def startsWithChars : List Char → List Char → Bool
  | [], _ => true
  | _ :: _, [] => false
  | a :: as, b :: bs => a == b && startsWithChars as bs

/-- `infixChars hay sub` tests whether `sub` occurs contiguously inside `hay`. -/
def infixChars : List Char → List Char → Bool
  | [], sub => sub.isEmpty
  | c :: t, sub => startsWithChars sub (c :: t) || infixChars t sub

/-- Model of JS `hay.includes(sub)`: `sub` occurs contiguously inside `hay`. -/
def containsSub (hay sub : String) : Bool := infixChars hay.data sub.data

/-- Model of JS `Array.prototype.slice(a, b)` for `0 ≤ a ≤ b`. -/
def jsSlice (l : List α) (a b : Nat) : List α := (l.drop a).take (b - a)

/-- Model of `Math.ceil(a / b)` on naturals, for `b > 0`. -/
def jsCeilDiv (a b : Nat) : Nat := (a + b - 1) / b

/-- The role enum from `src/unnamed/part_007` (`types.ts`). -/
inductive UserRole where
  | client | support | supervisor | manager | admin
deriving DecidableEq

/-- `USER_ROLES` from `src/constants.ts`: highest-privilege role first. -/
def USER_ROLES : List UserRole :=
  [.admin, .manager, .supervisor, .support, .client]

/-- The `UserCredentials` record from `types.ts` (`password` is optional). -/
structure UserCredentials where
  username : String
  password : Option String := none
  firstName : String
  lastName : String
  email : String
  mobile : String
  role : UserRole
  emailVerified : Bool
  ip : String
  device : String
  os : String
deriving DecidableEq

/-- The per-role capability flags (`RolePermissions` in `types.ts`). -/
structure RolePermissions where
  canViewDashboard : Bool
  canManageUsers : Bool
  canManageRoles : Bool
  canManageKB : Bool
  canViewModelConfig : Bool
  canEditModelConfig : Bool
  canViewCompanySettings : Bool
  canEditCompanySettings : Bool
  canViewChatLogs : Bool
  canViewSmtpSettings : Bool
  canEditSmtpSettings : Bool
  canCustomizePanel : Bool
  canManageBackups : Bool
  canImportUsers : Bool
deriving DecidableEq

/-- `AllRolePermissions = Record<UserRole, RolePermissions>`: one record per fixed role. -/
structure AllRolePermissions where
  client : RolePermissions
  support : RolePermissions
  supervisor : RolePermissions
  manager : RolePermissions
  admin : RolePermissions
deriving DecidableEq

/-- `KnowledgeEntry` from `types.ts`. -/
structure KnowledgeEntry where
  id : String
  tag : String
  content : String
  lastUpdated : Nat
  updatedBy : String
deriving DecidableEq

/-- The `sender` tag of a chat message. -/
inductive Sender where
  | user | atlas
deriving DecidableEq

/-- The optional per-message feedback tag. -/
inductive Feedback where
  | good | bad
deriving DecidableEq

/-- `ChatMessage` from `types.ts`. -/
structure ChatMessage where
  id : String
  sender : Sender
  text : String
  timestamp : Nat
  isError : Option Bool := none
  feedback : Option Feedback := none
deriving DecidableEq

/-- `Conversation` from `types.ts`: a chat log with an embedded user snapshot. -/
structure Conversation where
  id : String
  user : UserCredentials
  startTime : Nat
  messages : List ChatMessage
deriving DecidableEq

/-- The embedded user projection inside a `ConversationSummary`. -/
structure SummaryUser where
  username : String
  firstName : String
  lastName : String
deriving DecidableEq

/-- `ConversationSummary` from `types.ts`. -/
structure ConversationSummary where
  id : String
  user : SummaryUser
  firstMessage : String
  startTime : Nat
  messageCount : Nat
deriving DecidableEq

/-- `ModelProvider = 'google' | 'openai' | 'openrouter'` from `types.ts`. -/
inductive ModelProvider where
  | google | openai | openrouter
deriving DecidableEq

/-- `ModelConfig` from `types.ts`; the model id is an open string union. -/
structure ModelConfig where
  provider : ModelProvider
  model : String
  temperature : Rat
  topP : Rat
  topK : Rat
  customInstruction : String
deriving DecidableEq

/-- One language slice of `CompanyInfo`. -/
structure CompanyText where
  name : String
  about : String
deriving DecidableEq

/-- `CompanyInfo` from `types.ts`. -/
structure CompanyInfo where
  logo : Option String
  en : CompanyText
  fa : CompanyText
deriving DecidableEq

/-- `PanelConfig` from `types.ts`. -/
structure PanelConfig where
  aiNameEn : String
  aiNameFa : String
  chatHeaderTitleEn : String
  chatHeaderTitleFa : String
  chatPlaceholderEn : String
  chatPlaceholderFa : String
  welcomeMessageEn : String
  welcomeMessageFa : String
  aiAvatar : Option String
  privacyPolicyEn : String
  privacyPolicyFa : String
  termsOfServiceEn : String
  termsOfServiceFa : String
deriving DecidableEq

/-- `EmailTemplate` from `types.ts`. -/
structure EmailTemplate where
  subject : String
  body : String
deriving DecidableEq

/-- The two email templates embedded in `SmtpConfig`. -/
structure EmailTemplates where
  passwordReset : EmailTemplate
  emailVerification : EmailTemplate
deriving DecidableEq

/-- `SmtpConfig` from `types.ts` (`password` is optional). -/
structure SmtpConfig where
  host : String
  port : Nat
  secure : Bool
  username : String
  password : Option String := none
  emailTemplates : EmailTemplates
deriving DecidableEq

/-- The backup frequency enum. -/
inductive BackupFrequency where
  | daily | weekly
deriving DecidableEq

/-- `BackupSchedule` from `types.ts`. -/
structure BackupSchedule where
  enabled : Bool
  frequency : BackupFrequency
  dayOfWeek : Nat
  time : String
deriving DecidableEq

/-- `GoogleDriveConfig` from `types.ts`. -/
structure GoogleDriveConfig where
  connected : Bool
  email : Option String
deriving DecidableEq

/-- `CustomOpenRouterModel` from `types.ts`. -/
structure CustomOpenRouterModel where
  id : String
  name : String
deriving DecidableEq

/-- `ApiKeys` from `types.ts`: one stored key string per provider. -/
structure ApiKeys where
  google : String
  openai : String
  openrouter : String
deriving DecidableEq

/-- The single persisted JSON aggregate (`AppDatabase` in `apiService.ts`). -/
structure AppDatabase where
  users : List UserCredentials
  permissions : AllRolePermissions
  knowledgeBase : List KnowledgeEntry
  modelConfig : ModelConfig
  companyInfo : CompanyInfo
  panelConfig : PanelConfig
  smtpConfig : SmtpConfig
  chatLogs : List Conversation
  backupSchedule : BackupSchedule
  googleDriveConfig : GoogleDriveConfig
  customOpenRouterModels : List CustomOpenRouterModel
deriving DecidableEq

/-- `Partial<AppDatabase>`: the JSON slices produced by `getBackupData`, with
absent top-level keys modelled as `none`. -/
structure BackupData where
  users : Option (List UserCredentials) := none
  permissions : Option AllRolePermissions := none
  knowledgeBase : Option (List KnowledgeEntry) := none
  modelConfig : Option ModelConfig := none
  companyInfo : Option CompanyInfo := none
  panelConfig : Option PanelConfig := none
  smtpConfig : Option SmtpConfig := none
  chatLogs : Option (List Conversation) := none
  backupSchedule : Option BackupSchedule := none
  googleDriveConfig : Option GoogleDriveConfig := none
  customOpenRouterModels : Option (List CustomOpenRouterModel) := none
deriving DecidableEq

/-- `BackupType` from `types.ts`. -/
inductive BackupType where
  | panelConfig | modelConfig | knowledgeBase | database
  | smtpConfig | companyInfo | permissions | full
deriving DecidableEq

/-- The `{success, message?}` result shape returned by the mutation endpoints. -/
structure ApiResult where
  success : Bool
  message : Option String := none
deriving DecidableEq

/-- The `{success, message?, user?}` result shape returned by `login`. -/
structure LoginResult where
  success : Bool
  message : Option String := none
  user : Option UserCredentials := none
deriving DecidableEq

/-! ## API functions from `src/services/apiService.ts`, as pure state transformers -/

/-- `login` (apiService.ts lines 174-184): find the first user whose username matches
case-insensitively; succeed when the stored password matches or the supplied password
is the literal `'passkey_authenticated'`. The session-storage write is outside the
modelled aggregate. -/
def login (db : AppDatabase) (username password : String) : LoginResult :=
  match db.users.find? (fun u => lower u.username == lower username) with
  | some user =>
      if user.password == some password || password == "passkey_authenticated" then
        { success := true, user := some user }
      else
        { success := false, message := some "Invalid username or password." }
  | none => { success := false, message := some "Invalid username or password." }

/-- The filter pipeline inside `getUsers` (apiService.ts lines 300-314): optional
role filter, then, when the search string is non-empty, a single case-insensitive
substring test of the whole search string against username/firstName/lastName/email. -/
def usersMatching (db : AppDatabase) (search : String) (role : Option UserRole) :
    List UserCredentials :=
  let byRole := match role with
    | some r => db.users.filter (fun u => u.role == r)
    | none => db.users
  if search == "" then byRole
  else
    let lowercasedSearch := lower search
    byRole.filter (fun u =>
      containsSub (lower u.username) lowercasedSearch ||
      containsSub (lower u.firstName) lowercasedSearch ||
      containsSub (lower u.lastName) lowercasedSearch ||
      containsSub (lower u.email) lowercasedSearch)

/-- `getUsers` (apiService.ts lines 294-320): filter, then paginate by slicing
`[(page-1)*limit, page*limit)` and report `Math.ceil(length/limit)` pages. -/
def getUsers (db : AppDatabase) (page limit : Nat) (search : String)
    (role : Option UserRole) : List UserCredentials × Nat :=
  let filteredUsers := usersMatching db search role
  let totalPages := jsCeilDiv filteredUsers.length limit
  (jsSlice filteredUsers ((page - 1) * limit) (page * limit), totalPages)

/-- `getUserCount` (apiService.ts lines 322-327): the "ghost admin" count, which
filters out users with role `'admin'`. -/
def getUserCount (db : AppDatabase) : Nat :=
  (db.users.filter (fun u => u.role != UserRole.admin)).length

/-- `addUser` (apiService.ts lines 329-338): reject case-insensitive duplicate
usernames without saving; otherwise append the user with placeholder network fields. -/
def addUser (db : AppDatabase) (userData : UserCredentials) : ApiResult × AppDatabase :=
  if db.users.any (fun u => lower u.username == lower userData.username) then
    ({ success := false, message := some "Username already exists." }, db)
  else
    ({ success := true },
     { db with users := db.users ++ [{ userData with ip := "N/A", device := "N/A", os := "N/A" }] })

/-- `updateSmtpConfig` (apiService.ts lines 552-561): an empty incoming password is
replaced by the previously stored one before the config is stored wholesale. -/
def updateSmtpConfig (db : AppDatabase) (config : SmtpConfig) : ApiResult × AppDatabase :=
  let config := if config.password == some "" then
      { config with password := db.smtpConfig.password }
    else config
  ({ success := true }, { db with smtpConfig := config })

/-- `deleteKnowledgeEntry` (apiService.ts lines 475-481): keep every entry whose id
differs from the given id. -/
def deleteKnowledgeEntry (db : AppDatabase) (id : String) : ApiResult × AppDatabase :=
  ({ success := true },
   { db with knowledgeBase := db.knowledgeBase.filter (fun e => e.id != id) })

/-- The summary projection inside `getChatLogs` (apiService.ts lines 604-614);
`log.messages[0]?.text || ''` is the text of the head message, defaulting to `''`. -/
def toSummary (log : Conversation) : ConversationSummary :=
  { id := log.id
    user := { username := log.user.username
              firstName := log.user.firstName
              lastName := log.user.lastName }
    firstMessage := match log.messages.head? with
      | some m => m.text
      | none => ""
    startTime := log.startTime
    messageCount := log.messages.length }

/-- The filter pipeline inside `getChatLogs` (apiService.ts lines 591-602): drop the
ghost admin's conversations, then, when the search string is non-empty, a single
case-insensitive substring test of the whole search string against the embedded
user's username/firstName/lastName and each message text. -/
def chatLogsMatching (db : AppDatabase) (search : String) : List Conversation :=
  let filteredLogs := db.chatLogs.filter (fun log => log.user.username != "admin")
  if search == "" then filteredLogs
  else
    let lowercasedSearch := lower search
    filteredLogs.filter (fun log =>
      containsSub (lower log.user.username) lowercasedSearch ||
      containsSub (lower log.user.firstName) lowercasedSearch ||
      containsSub (lower log.user.lastName) lowercasedSearch ||
      log.messages.any (fun m => containsSub (lower m.text) lowercasedSearch))

/-- `getChatLogs` (apiService.ts lines 587-620): filter, summarise, reverse
(most recent first), then paginate exactly as `getUsers` does. -/
def getChatLogs (db : AppDatabase) (page limit : Nat) (search : String) :
    List ConversationSummary × Nat :=
  let summaries := ((chatLogsMatching db search).map toSummary).reverse
  let totalPages := jsCeilDiv summaries.length limit
  (jsSlice summaries ((page - 1) * limit) (page * limit), totalPages)

/-- `getChatLogCount` (apiService.ts lines 622-627): count the conversations whose
embedded user is not the ghost admin. -/
def getChatLogCount (db : AppDatabase) : Nat :=
  (db.chatLogs.filter (fun log => log.user.username != "admin")).length

/-- `getBackupData` (apiService.ts lines 700-710): `'full'` exports the whole
aggregate, `'database'` exports users and chat logs, and each remaining type exports
its single named key. -/
def getBackupData (db : AppDatabase) (type : BackupType) : BackupData :=
  match type with
  | .full =>
      { users := some db.users
        permissions := some db.permissions
        knowledgeBase := some db.knowledgeBase
        modelConfig := some db.modelConfig
        companyInfo := some db.companyInfo
        panelConfig := some db.panelConfig
        smtpConfig := some db.smtpConfig
        chatLogs := some db.chatLogs
        backupSchedule := some db.backupSchedule
        googleDriveConfig := some db.googleDriveConfig
        customOpenRouterModels := some db.customOpenRouterModels }
  | .database => { users := some db.users, chatLogs := some db.chatLogs }
  | .panelConfig => { panelConfig := some db.panelConfig }
  | .modelConfig => { modelConfig := some db.modelConfig }
  | .knowledgeBase => { knowledgeBase := some db.knowledgeBase }
  | .smtpConfig => { smtpConfig := some db.smtpConfig }
  | .companyInfo => { companyInfo := some db.companyInfo }
  | .permissions => { permissions := some db.permissions }

/-- `restoreBackupData` (apiService.ts lines 712-718): the JS spread
`{ ...db, ...data }`, a shallow merge in which every top-level key present in
`data` overrides the current aggregate's value. -/
def restoreBackupData (db : AppDatabase) (data : BackupData) : ApiResult × AppDatabase :=
  ({ success := true },
   { users := data.users.getD db.users
     permissions := data.permissions.getD db.permissions
     knowledgeBase := data.knowledgeBase.getD db.knowledgeBase
     modelConfig := data.modelConfig.getD db.modelConfig
     companyInfo := data.companyInfo.getD db.companyInfo
     panelConfig := data.panelConfig.getD db.panelConfig
     smtpConfig := data.smtpConfig.getD db.smtpConfig
     chatLogs := data.chatLogs.getD db.chatLogs
     backupSchedule := data.backupSchedule.getD db.backupSchedule
     googleDriveConfig := data.googleDriveConfig.getD db.googleDriveConfig
     customOpenRouterModels := data.customOpenRouterModels.getD db.customOpenRouterModels })

/-! ## The user-management authorization check from `src/unnamed/part_001` -/

/-- `canManageUser` (part_001 lines 437-445): deny managing oneself (by username)
and any `'admin'` target; otherwise permit exactly when the actor's index in
`USER_ROLES` is strictly below the target's. -/
def canManageUser (currentUser targetUser : UserCredentials) : Bool :=
  if currentUser.username == targetUser.username then false
  else if targetUser.role == UserRole.admin then false
  else decide (USER_ROLES.indexOf currentUser.role < USER_ROLES.indexOf targetUser.role)

/-! ## The chat-provider dispatcher from `src/unnamed/part_000` -/

/-- `ErrorCategory` from `services/errors.ts` (its content sits at the end of
`src/i18n/i18n.tsx`, lines 83-103): the seven category tags of the dispatcher's
typed error. -/
inductive ErrorCategory where
  | API_KEY_MISSING | INVALID_API_KEY | RATE_LIMIT_EXCEEDED | MODEL_UNAVAILABLE
  | CONTENT_BLOCKED | BAD_REQUEST | UNKNOWN
deriving DecidableEq

/-- The `GeminiServiceError` class from `services/errors.ts` (end of
`src/i18n/i18n.tsx`, lines 83-103): a message plus a readonly `category` tag.
The inherited `name` field is the constant `'GeminiServiceError'` for every
instance and is omitted; the constructor's `'UNKNOWN'` default is never relied on,
as every throw site in `part_000` passes a category explicitly. -/
structure GeminiServiceError where
  message : String
  category : ErrorCategory
deriving DecidableEq

/-- The outcome of a generation call: a text answer or a thrown `GeminiServiceError`. -/
abbrev GenResult := Except GeminiServiceError String

/-- `generateWithGoogle` (part_000 lines 15-69): an empty key fails with
`API_KEY_MISSING` before any network activity; the external Gemini call that follows
a non-empty key is abstracted as the `googleCall` parameter. -/
def generateWithGoogle (googleCall : String → String → ModelConfig → String → String → GenResult)
    (question knowledgeBase : String) (config : ModelConfig) (aiName apiKey : String) :
    GenResult :=
  if apiKey == "" then
    .error { message := "Google API key is not configured.", category := .API_KEY_MISSING }
  else googleCall question knowledgeBase config aiName apiKey

/-- `generateWithOpenAI` (part_000 lines 72-85): mock adapter; an empty key fails
with `API_KEY_MISSING`, otherwise a canned string is returned. -/
def generateWithOpenAI (question _knowledgeBase : String) (config : ModelConfig)
    (aiName apiKey : String) : GenResult :=
  if apiKey == "" then
    .error { message := "OpenAI API key is not configured.", category := .API_KEY_MISSING }
  else
    .ok ("[Mock response from OpenAI/" ++ config.model ++ "] I am " ++ aiName ++
      ". You asked: \"" ++ question ++ "\"")

/-- `generateWithOpenRouter` (part_000 lines 88-101): mock adapter; an empty key
fails with `API_KEY_MISSING`, otherwise a canned string is returned. -/
def generateWithOpenRouter (question _knowledgeBase : String) (config : ModelConfig)
    (aiName apiKey : String) : GenResult :=
  if apiKey == "" then
    .error { message := "OpenRouter API key is not configured.", category := .API_KEY_MISSING }
  else
    .ok ("[Mock response from OpenRouter/" ++ config.model ++ "] I am " ++ aiName ++
      ". You asked: \"" ++ question ++ "\"")

/-- `generateAnswer` (part_000 lines 105-127): fetch the stored api keys (here an
explicit argument) and dispatch on `config.provider` to the matching adapter,
passing that provider's stored key. -/
def generateAnswer (googleCall : String → String → ModelConfig → String → String → GenResult)
    (question knowledgeBase : String) (config : ModelConfig) (aiName : String)
    (apiKeys : ApiKeys) : GenResult :=
  match config.provider with
  | .google => generateWithGoogle googleCall question knowledgeBase config aiName apiKeys.google
  | .openai => generateWithOpenAI question knowledgeBase config aiName apiKeys.openai
  | .openrouter => generateWithOpenRouter question knowledgeBase config aiName apiKeys.openrouter

/-- The stored key that `generateAnswer` hands to the adapter chosen by a provider. -/
def providerKey (keys : ApiKeys) : ModelProvider → String
  | .google => keys.google
  | .openai => keys.openai
  | .openrouter => keys.openrouter

/-! ## Spec-side definitions (used to compare the spec's words with the code) -/

/-- The spec's fixed privilege order `admin > manager > supervisor > support > client`
as a numeric rank: a larger rank is a strictly higher role. -/
def roleRank : UserRole → Nat
  | .client => 0
  | .support => 1
  | .supervisor => 2
  | .manager => 3
  | .admin => 4

/-- Accumulator pass splitting a character stream into maximal whitespace-free runs. -/
def wsTokensAux : List Char → List Char → List String
  | [], acc => if acc.isEmpty then [] else [⟨acc.reverse⟩]
  | c :: cs, acc =>
      if c.isWhitespace then
        if acc.isEmpty then wsTokensAux cs []
        else (⟨acc.reverse⟩ : String) :: wsTokensAux cs []
      else wsTokensAux cs (c :: acc)

/-- The whitespace-split tokens of a search query, following the spec's words
("ANDed across whitespace-split query tokens"). -/
def whitespaceTokens (s : String) : List String := wsTokensAux s.data []

/-- The search semantics the spec claims for `getUsers`: every whitespace-split token
of the query is a case-insensitive substring of at least one searched field. -/
def specUserTokenMatch (search : String) (u : UserCredentials) : Bool :=
  (whitespaceTokens search).all (fun tok =>
    containsSub (lower u.username) (lower tok) ||
    containsSub (lower u.firstName) (lower tok) ||
    containsSub (lower u.lastName) (lower tok) ||
    containsSub (lower u.email) (lower tok))

/-- Whether a user passes the optional role pre-filter of `getUsers`. -/
def roleFilterOk (role : Option UserRole) (u : UserCredentials) : Prop :=
  match role with
  | some r => u.role = r
  | none => True

/-! ## Concrete fixtures for witnesses and counterexamples -/

/-- A capability record with every flag cleared; the flag values are irrelevant to
the verified endpoints. -/
def noCaps : RolePermissions :=
  ⟨false, false, false, false, false, false, false,
   false, false, false, false, false, false, false⟩

/-- A permissions table assigning `noCaps` to every role. -/
def sampleAllPerms : AllRolePermissions := ⟨noCaps, noCaps, noCaps, noCaps, noCaps⟩

/-- A small concrete SMTP configuration. -/
def sampleSmtp : SmtpConfig :=
  { host := "smtp.atlas.local"
    port := 587
    secure := false
    username := "mailer"
    password := some "oldsecret"
    emailTemplates :=
      ⟨⟨"Your Password Reset Link", "reset body"⟩,
       ⟨"Verify Your Email Address", "verify body"⟩⟩ }

/-- A small concrete model configuration (integral sampling parameters so that
kernel evaluation of equality stays cheap). -/
def sampleModelConfig : ModelConfig :=
  { provider := .google
    model := "gemini-2.5-flash"
    temperature := 1
    topP := 1
    topK := 40
    customInstruction := "Be concise." }

/-- A small concrete aggregate used as the base state of witnesses. -/
def sampleDb : AppDatabase :=
  { users := []
    permissions := sampleAllPerms
    knowledgeBase := []
    modelConfig := sampleModelConfig
    companyInfo := { logo := none, en := ⟨"Atlas Corp.", "about"⟩, fa := ⟨"Atlas", "about"⟩ }
    panelConfig :=
      { aiNameEn := "Atlas", aiNameFa := "Atlas"
        chatHeaderTitleEn := "Conversation with Atlas", chatHeaderTitleFa := "t"
        chatPlaceholderEn := "Type your message here...", chatPlaceholderFa := "p"
        welcomeMessageEn := "Hello!", welcomeMessageFa := "w"
        aiAvatar := none
        privacyPolicyEn := "pp", privacyPolicyFa := "pp"
        termsOfServiceEn := "tos", termsOfServiceFa := "tos" }
    smtpConfig := sampleSmtp
    chatLogs := []
    backupSchedule := { enabled := false, frequency := .daily, dayOfWeek := 1, time := "02:00" }
    googleDriveConfig := { connected := false, email := none }
    customOpenRouterModels := [] }

/-- A concrete user record with the given username and role. -/
def mkUser (name : String) (role : UserRole) : UserCredentials :=
  { username := name
    password := some "password"
    firstName := name
    lastName := "User"
    email := name ++ "@atlas.local"
    mobile := ""
    role := role
    emailVerified := true
    ip := "127.0.0.1"
    device := "Desktop"
    os := "Linux" }

/-! ## Claims -/

/-- C1: for every database state and every user record whose username equals,
case-insensitively, the username of some existing user, `addUser` returns
`{success: false, message: 'Username already exists.'}` and leaves the entire
stored database unchanged. -/
theorem addUser_duplicate_username (db : AppDatabase) (userData : UserCredentials)
    (h : ∃ u ∈ db.users, lower u.username = lower userData.username) :
    addUser db userData =
      ({ success := false, message := some "Username already exists." }, db) := by
  obtain ⟨u, hu, hname⟩ := h
  have hany : db.users.any (fun u => lower u.username == lower userData.username) = true :=
    List.any_eq_true.mpr ⟨u, hu, by simp [hname]⟩
  simp [addUser, hany]

/-- A database holding one existing user named `Admin`. -/
def dbDup : AppDatabase := { sampleDb with users := [mkUser "Admin" .manager] }

/-- A candidate user whose username duplicates `Admin` up to case. -/
def userDup : UserCredentials := mkUser "admin" .client

/-- Witness for C1 at a concrete duplicate username. -/
theorem addUser_duplicate_username_witness :
    (∃ u ∈ dbDup.users, lower u.username = lower userDup.username) ∧
    addUser dbDup userDup =
      ({ success := false, message := some "Username already exists." }, dbDup) :=
  ⟨by decide, addUser_duplicate_username dbDup userDup (by decide)⟩

/-- C2: exporting a full backup and then restoring it over any current aggregate
stores an aggregate deep-equal to the one at the time of export: the shallow merge
of `restoreBackupData` overrides every top-level key, because a full export
provides all of them. -/
theorem full_backup_restore_roundtrip (dbAtExport dbCurrent : AppDatabase) :
    (restoreBackupData dbCurrent (getBackupData dbAtExport .full)).2 = dbAtExport := rfl

/-- C4: `updateSmtpConfig` stores the incoming configuration, except that an empty
incoming password is replaced by the previously stored password. -/
theorem updateSmtpConfig_preserves_password (db : AppDatabase) (config : SmtpConfig) :
    (updateSmtpConfig db config).2.smtpConfig =
      if config.password = some "" then { config with password := db.smtpConfig.password }
      else config := by
  by_cases h : config.password = some "" <;> simp [updateSmtpConfig, h]

/-- C10: the `'admin'` account is invisible to the reporting endpoints:
`getUserCount` counts only users whose role is not `admin`, and `getChatLogs` and
`getChatLogCount` consider only conversations whose embedded user's username is
not `'admin'`. -/
theorem ghost_admin_reporting (db : AppDatabase) (page limit : Nat) (search : String) :
    getUserCount db = db.users.countP (fun u => u.role != UserRole.admin) ∧
    getChatLogs db page limit search =
      getChatLogs
        { db with chatLogs := db.chatLogs.filter (fun log => log.user.username != "admin") }
        page limit search ∧
    getChatLogCount db = db.chatLogs.countP (fun log => log.user.username != "admin") := by
  refine ⟨?_, ?_, ?_⟩
  · simp [getUserCount, List.countP_eq_length_filter]
  · have key :
        chatLogsMatching
          { db with chatLogs := db.chatLogs.filter (fun log => log.user.username != "admin") }
          search = chatLogsMatching db search := by
      have hident :
          (db.chatLogs.filter (fun log => log.user.username != "admin")).filter
              (fun log => log.user.username != "admin") =
            db.chatLogs.filter (fun log => log.user.username != "admin") :=
        List.filter_eq_self.mpr (fun a ha => (List.mem_filter.mp ha).2)
      simp only [chatLogsMatching, hident]
    simp only [getChatLogs, key]
  · simp [getChatLogCount, List.countP_eq_length_filter]

/-- Bridge between the code's `USER_ROLES` index comparison and the spec's privilege
rank: a strictly smaller index in `USER_ROLES` is a strictly higher rank. -/
theorem indexOf_lt_iff_roleRank (r s : UserRole) :
    USER_ROLES.indexOf r < USER_ROLES.indexOf s ↔ roleRank s < roleRank r := by
  cases r <;> cases s <;> decide

/-- C3: `canManageUser` permits the actor to manage the target exactly when the
target is not the actor (by username), the target's role is not `admin`, and the
actor's role is strictly higher in the fixed order
admin > manager > supervisor > support > client. -/
theorem canManageUser_iff (actor target : UserCredentials) :
    canManageUser actor target = true ↔
      actor.username ≠ target.username ∧ target.role ≠ UserRole.admin ∧
        roleRank target.role < roleRank actor.role := by
  unfold canManageUser
  by_cases h : actor.username = target.username
  · simp [h]
  · by_cases ha : target.role = UserRole.admin
    · simp [h, ha]
    · simp [h, ha, indexOf_lt_iff_roleRank]

/-- C6: `generateAnswer` dispatches on `config.provider` to the matching adapter,
handing it that provider's stored key, and whenever the selected provider's stored
key is the empty string the result is a thrown `GeminiServiceError` in the
`API_KEY_MISSING` category instead of generated text. -/
theorem generateAnswer_dispatch_and_missing_key
    (googleCall : String → String → ModelConfig → String → String → GenResult)
    (question knowledgeBase : String) (config : ModelConfig) (aiName : String)
    (apiKeys : ApiKeys) :
    (generateAnswer googleCall question knowledgeBase config aiName apiKeys =
      match config.provider with
      | .google => generateWithGoogle googleCall question knowledgeBase config aiName apiKeys.google
      | .openai => generateWithOpenAI question knowledgeBase config aiName apiKeys.openai
      | .openrouter => generateWithOpenRouter question knowledgeBase config aiName apiKeys.openrouter) ∧
    (providerKey apiKeys config.provider = "" →
      ∃ e, generateAnswer googleCall question knowledgeBase config aiName apiKeys =
          Except.error e ∧ e.category = ErrorCategory.API_KEY_MISSING) := by
  obtain ⟨p, m, t, tp, tk, ci⟩ := config
  refine ⟨rfl, fun hk => ?_⟩
  cases p
  · exact ⟨{ message := "Google API key is not configured.", category := .API_KEY_MISSING },
      by simp only [providerKey] at hk
         simp [generateAnswer, generateWithGoogle, hk], rfl⟩
  · exact ⟨{ message := "OpenAI API key is not configured.", category := .API_KEY_MISSING },
      by simp only [providerKey] at hk
         simp [generateAnswer, generateWithOpenAI, hk], rfl⟩
  · exact ⟨{ message := "OpenRouter API key is not configured.", category := .API_KEY_MISSING },
      by simp only [providerKey] at hk
         simp [generateAnswer, generateWithOpenRouter, hk], rfl⟩

/-- A stand-in for the external Gemini call, used only to instantiate the dispatcher. -/
def stubGoogleCall : String → String → ModelConfig → String → String → GenResult :=
  fun _ _ _ _ _ => .ok "generated text"

/-- The stored keys of the witness: the google key is empty. -/
def keysNoGoogle : ApiKeys := { google := "", openai := "sk-1", openrouter := "sk-2" }

/-- Witness for C6: with an empty google key, the google-dispatched call fails in the
`API_KEY_MISSING` category. -/
theorem generateAnswer_missing_key_witness :
    providerKey keysNoGoogle sampleModelConfig.provider = "" ∧
    (∃ e, generateAnswer stubGoogleCall "q" "kb" sampleModelConfig "Atlas" keysNoGoogle =
        Except.error e ∧ e.category = ErrorCategory.API_KEY_MISSING) :=
  ⟨rfl, (generateAnswer_dispatch_and_missing_key stubGoogleCall "q" "kb" sampleModelConfig
    "Atlas" keysNoGoogle).2 rfl⟩

/-- C7: over a filtered collection of exactly 15 records, `getUsers` with page 2 and
limit 10 returns exactly the records at indices 10 through 14 (the final 5), and
reports 2 total pages. -/
theorem getUsers_page2_of_15 (db : AppDatabase) (search : String) (role : Option UserRole)
    (h : (usersMatching db search role).length = 15) :
    (getUsers db 2 10 search role).1 = (usersMatching db search role).drop 10 ∧
    (getUsers db 2 10 search role).1.length = 5 ∧
    (getUsers db 2 10 search role).2 = 2 := by
  have hd : ((usersMatching db search role).drop 10).length = 5 := by
    rw [List.length_drop, h]
  refine ⟨?_, ?_, ?_⟩
  · show jsSlice (usersMatching db search role) ((2 - 1) * 10) (2 * 10) = _
    unfold jsSlice
    have e1 : (2 - 1) * 10 = 10 := rfl
    have e2 : 2 * 10 - (2 - 1) * 10 = 10 := rfl
    rw [e1, e2, List.take_of_length_le (by rw [hd]; omega)]
  · show (jsSlice (usersMatching db search role) ((2 - 1) * 10) (2 * 10)).length = 5
    unfold jsSlice
    simp [List.length_take, List.length_drop, h]
  · show jsCeilDiv (usersMatching db search role).length 10 = 2
    rw [jsCeilDiv, h]

/-- A database with 15 identical client users, all passing the empty filter. -/
def dbFifteen : AppDatabase :=
  { sampleDb with users := List.replicate 15 (mkUser "client" .client) }

/-- Witness for C7 on a concrete 15-record collection. -/
theorem getUsers_page2_of_15_witness :
    (usersMatching dbFifteen "" none).length = 15 ∧
    ((getUsers dbFifteen 2 10 "" none).1 = (usersMatching dbFifteen "" none).drop 10 ∧
     (getUsers dbFifteen 2 10 "" none).1.length = 5 ∧
     (getUsers dbFifteen 2 10 "" none).2 = 2) :=
  ⟨by decide, getUsers_page2_of_15 dbFifteen "" none (by decide)⟩

/-- A single user whose username is `admin`; both whitespace-split tokens of the
query `"ad min"` occur in it, yet the code's single-substring search rejects it. -/
def dbTokenSearch : AppDatabase := { sampleDb with users := [mkUser "admin" .admin] }

/-- C5 counterexample: `getUsers` does NOT return exactly the records for which
every whitespace-split token of the query matches some field. For the query
`"ad min"` the sole user `admin` satisfies both tokens (`ad`, `min`) yet the
endpoint returns the empty page, because the code substring-matches the whole
query, whitespace included, without splitting it. -/
theorem getUsers_token_search_counterexample :
    specUserTokenMatch "ad min" (mkUser "admin" .admin) = true ∧
    ¬ ((getUsers dbTokenSearch 1 10 "ad min" none).1 =
        dbTokenSearch.users.filter (specUserTokenMatch "ad min")) := by
  constructor
  · decide
  · decide

/-- C5 as amended: for every non-empty search query, the filter stage of the list
endpoints keeps exactly the records for which the ENTIRE lowercased query — taken
as one string, not split into whitespace tokens — is a substring of at least one of
the fixed searched fields (for chat logs, alternatively of some message text, among
non-admin conversations). -/
theorem search_whole_query_substring (db : AppDatabase) (search : String)
    (role : Option UserRole) (hs : search ≠ "") :
    (∀ u, u ∈ usersMatching db search role ↔
        u ∈ db.users ∧ roleFilterOk role u ∧
        (containsSub (lower u.username) (lower search) ||
         containsSub (lower u.firstName) (lower search) ||
         containsSub (lower u.lastName) (lower search) ||
         containsSub (lower u.email) (lower search)) = true) ∧
    (∀ log, log ∈ chatLogsMatching db search ↔
        log ∈ db.chatLogs ∧ log.user.username ≠ "admin" ∧
        (containsSub (lower log.user.username) (lower search) ||
         containsSub (lower log.user.firstName) (lower search) ||
         containsSub (lower log.user.lastName) (lower search) ||
         log.messages.any (fun m => containsSub (lower m.text) (lower search))) = true) := by
  have hb : (search == "") = false := by simpa using hs
  constructor
  · intro u
    cases role with
    | none =>
        simp [usersMatching, hb, roleFilterOk, List.mem_filter]
    | some r =>
        simp only [usersMatching, hb, roleFilterOk, Bool.false_eq_true, if_false,
          List.mem_filter, beq_iff_eq]
        tauto
  · intro log
    simp only [chatLogsMatching, hb, Bool.false_eq_true, if_false, List.mem_filter,
      bne_iff_ne, Bool.or_eq_true, List.any_eq_true, and_assoc]

/-- Witness for the amended C5 at a concrete non-empty query: the iff instance for
the sole user and the empty chat-log list. -/
theorem search_whole_query_substring_witness :
    ("min" ≠ "" ∧
      ((mkUser "admin" .admin) ∈ usersMatching dbTokenSearch "min" none ↔
        (mkUser "admin" .admin) ∈ dbTokenSearch.users ∧ roleFilterOk none (mkUser "admin" .admin) ∧
        (containsSub (lower (mkUser "admin" .admin).username) (lower "min") ||
         containsSub (lower (mkUser "admin" .admin).firstName) (lower "min") ||
         containsSub (lower (mkUser "admin" .admin).lastName) (lower "min") ||
         containsSub (lower (mkUser "admin" .admin).email) (lower "min")) = true)) :=
  ⟨by decide, (search_whole_query_substring dbTokenSearch "min" none (by decide)).1
    (mkUser "admin" .admin)⟩

/-- C8: when knowledge-entry ids are pairwise distinct and the given id is present,
`deleteKnowledgeEntry` removes the single entry bearing that id — the knowledge base
splits as `l1 ++ e :: l2` and becomes `l1 ++ l2` — and every other part of the
aggregate is unchanged. -/
theorem deleteKnowledgeEntry_removes_exactly_one (db : AppDatabase) (e : KnowledgeEntry)
    (hmem : e ∈ db.knowledgeBase)
    (hnd : (db.knowledgeBase.map KnowledgeEntry.id).Nodup) :
    (∃ l1 l2, db.knowledgeBase = l1 ++ e :: l2 ∧
        (deleteKnowledgeEntry db e.id).2.knowledgeBase = l1 ++ l2) ∧
    (deleteKnowledgeEntry db e.id).2.users = db.users ∧
    (deleteKnowledgeEntry db e.id).2.permissions = db.permissions ∧
    (deleteKnowledgeEntry db e.id).2.modelConfig = db.modelConfig ∧
    (deleteKnowledgeEntry db e.id).2.companyInfo = db.companyInfo ∧
    (deleteKnowledgeEntry db e.id).2.panelConfig = db.panelConfig ∧
    (deleteKnowledgeEntry db e.id).2.smtpConfig = db.smtpConfig ∧
    (deleteKnowledgeEntry db e.id).2.chatLogs = db.chatLogs ∧
    (deleteKnowledgeEntry db e.id).2.backupSchedule = db.backupSchedule ∧
    (deleteKnowledgeEntry db e.id).2.googleDriveConfig = db.googleDriveConfig ∧
    (deleteKnowledgeEntry db e.id).2.customOpenRouterModels = db.customOpenRouterModels := by
  refine ⟨?_, rfl, rfl, rfl, rfl, rfl, rfl, rfl, rfl, rfl, rfl⟩
  obtain ⟨l1, l2, hsplit⟩ := List.append_of_mem hmem
  refine ⟨l1, l2, hsplit, ?_⟩
  have hnd2 : (l1.map KnowledgeEntry.id ++ e.id :: l2.map KnowledgeEntry.id).Nodup := by
    rw [hsplit, List.map_append, List.map_cons] at hnd
    exact hnd
  have hnotmem : e.id ∉ l1.map KnowledgeEntry.id ++ l2.map KnowledgeEntry.id :=
    (List.nodup_cons.mp (List.nodup_middle.mp hnd2)).1
  have h1 : ∀ x ∈ l1, (x.id != e.id) = true := by
    intro x hx
    have : x.id ∈ l1.map KnowledgeEntry.id := List.mem_map_of_mem _ hx
    simp only [bne_iff_ne, ne_eq]
    intro hcontra
    exact hnotmem (List.mem_append_left _ (hcontra ▸ this))
  have h2 : ∀ x ∈ l2, (x.id != e.id) = true := by
    intro x hx
    have : x.id ∈ l2.map KnowledgeEntry.id := List.mem_map_of_mem _ hx
    simp only [bne_iff_ne, ne_eq]
    intro hcontra
    exact hnotmem (List.mem_append_right _ (hcontra ▸ this))
  show (db.knowledgeBase.filter (fun x => x.id != e.id)) = l1 ++ l2
  rw [hsplit, List.filter_append, List.filter_cons]
  simp only [bne_self_eq_false, Bool.false_eq_true, if_false]
  rw [List.filter_eq_self.mpr h1, List.filter_eq_self.mpr h2]

/-- Two concrete knowledge entries with distinct ids. -/
def kbEntryA : KnowledgeEntry := ⟨"kb-1", "hours", "Open 9-5", 0, "admin"⟩

/-- Second concrete knowledge entry. -/
def kbEntryB : KnowledgeEntry := ⟨"kb-2", "returns", "30 days", 0, "admin"⟩

/-- A database whose knowledge base holds the two distinct-id entries. -/
def dbTwoEntries : AppDatabase := { sampleDb with knowledgeBase := [kbEntryA, kbEntryB] }

/-- Witness for C8: deleting `kb-1` from the two-entry base removes exactly it. -/
theorem deleteKnowledgeEntry_removes_exactly_one_witness :
    kbEntryA ∈ dbTwoEntries.knowledgeBase ∧
    (dbTwoEntries.knowledgeBase.map KnowledgeEntry.id).Nodup ∧
    ((∃ l1 l2, dbTwoEntries.knowledgeBase = l1 ++ kbEntryA :: l2 ∧
        (deleteKnowledgeEntry dbTwoEntries kbEntryA.id).2.knowledgeBase = l1 ++ l2) ∧
     (deleteKnowledgeEntry dbTwoEntries kbEntryA.id).2.users = dbTwoEntries.users ∧
     (deleteKnowledgeEntry dbTwoEntries kbEntryA.id).2.permissions = dbTwoEntries.permissions ∧
     (deleteKnowledgeEntry dbTwoEntries kbEntryA.id).2.modelConfig = dbTwoEntries.modelConfig ∧
     (deleteKnowledgeEntry dbTwoEntries kbEntryA.id).2.companyInfo = dbTwoEntries.companyInfo ∧
     (deleteKnowledgeEntry dbTwoEntries kbEntryA.id).2.panelConfig = dbTwoEntries.panelConfig ∧
     (deleteKnowledgeEntry dbTwoEntries kbEntryA.id).2.smtpConfig = dbTwoEntries.smtpConfig ∧
     (deleteKnowledgeEntry dbTwoEntries kbEntryA.id).2.chatLogs = dbTwoEntries.chatLogs ∧
     (deleteKnowledgeEntry dbTwoEntries kbEntryA.id).2.backupSchedule = dbTwoEntries.backupSchedule ∧
     (deleteKnowledgeEntry dbTwoEntries kbEntryA.id).2.googleDriveConfig =
        dbTwoEntries.googleDriveConfig ∧
     (deleteKnowledgeEntry dbTwoEntries kbEntryA.id).2.customOpenRouterModels =
        dbTwoEntries.customOpenRouterModels) :=
  ⟨by decide, by decide,
    deleteKnowledgeEntry_removes_exactly_one dbTwoEntries kbEntryA (by decide) (by decide)⟩

/-- C9: under the store's case-insensitive username-uniqueness invariant, `login`
succeeds exactly when a user with the supplied username exists (matched
case-insensitively) and either the supplied password equals that user's stored
password or the supplied password is the literal `'passkey_authenticated'` — so any
existing account accepts `'passkey_authenticated'` regardless of its stored password. -/
theorem login_success_iff (db : AppDatabase) (username password : String)
    (hnd : (db.users.map (fun u => lower u.username)).Nodup) :
    (login db username password).success = true ↔
      ∃ u ∈ db.users, lower u.username = lower username ∧
        (u.password = some password ∨ password = "passkey_authenticated") := by
  unfold login
  cases hf : db.users.find? (fun u => lower u.username == lower username) with
  | none =>
      simp only [LoginResult.success]
      constructor
      · intro h
        exact absurd h (by simp)
      · rintro ⟨u, hu, hname, -⟩
        have := List.find?_eq_none.mp hf u hu
        simp [hname] at this
  | some u =>
      have hmem : u ∈ db.users := List.mem_of_find?_eq_some hf
      have hpred : lower u.username = lower username := by
        have := List.find?_some hf
        simpa using this
      dsimp only
      by_cases hc : (u.password == some password || password == "passkey_authenticated") = true
      · rw [if_pos hc]
        constructor
        · intro _
          exact ⟨u, hmem, hpred, by simpa using hc⟩
        · intro _
          rfl
      · rw [if_neg hc]
        constructor
        · intro h
          exact absurd h (by simp)
        · rintro ⟨v, hv, hvname, hvcond⟩
          exfalso
          have hveq : v = u :=
            List.inj_on_of_nodup_map hnd hv hmem (by rw [hvname, hpred])
          subst hveq
          exact hc (by simpa using hvcond)

/-- A single-user store with a known password. -/
def dbAlice : AppDatabase := { sampleDb with users := [mkUser "alice" .client] }

/-- Witness for C9: with mixed-case lookup and the passkey backdoor literal, `login`
succeeds on the concrete store. -/
theorem login_success_iff_witness :
    (dbAlice.users.map (fun u => lower u.username)).Nodup ∧
    ((login dbAlice "ALICE" "passkey_authenticated").success = true ↔
      ∃ u ∈ dbAlice.users, lower u.username = lower "ALICE" ∧
        (u.password = some "passkey_authenticated" ∨
          "passkey_authenticated" = "passkey_authenticated")) :=
  ⟨by decide, login_success_iff dbAlice "ALICE" "passkey_authenticated" (by decide)⟩
